import Mathlib

/-!
Verification of the Plano layout-engine logic (src/src/Plano.tsx).

The component's geometry and validation logic is embedded shallowly:
JavaScript numbers are modelled as rationals (ℚ), `Math.round t` as
`⌊t + 1/2⌋` (JavaScript rounds half toward positive infinity),
`Math.ceil` as `Int.ceil`, and `Math.floor` as `Int.floor`.
A JavaScript value that may be `undefined`/`NaN` before the `|| 0`
coercion (the `qty` and `depth` item fields, and the optional
`stageHeight` argument) is modelled as an `Option ℚ` with `none`
standing for the absent/NaN case.
-/

namespace Plano

/-- Item record from Plano.tsx (`PlanoItem`): id, name, position `x`,`y`,
size `w`,`h` (pixels), `depth` (cm), `qty`, display color. `depth` and
`qty` are `Option ℚ`: `none` models an `undefined`/`NaN` field, which the
source guards with `|| 0`. -/
structure PlanoItem where
  id : String
  name : String
  x : ℚ
  y : ℚ
  w : ℚ
  h : ℚ
  depth : Option ℚ
  qty : Option ℚ
  color : String
deriving DecidableEq, Repr

/-- Transient drag state from Plano.tsx (`DragState`):
`{ id, offsetX, offsetY, resizing }`. -/
structure DragState where
  id : String
  offsetX : ℚ
  offsetY : ℚ
  resizing : Bool
deriving DecidableEq, Repr

/-- Transient measurement state from Plano.tsx (`MeasureState`):
`{ active, x, y, w, h }`. -/
structure MeasureState where
  active : Bool
  x : ℚ
  y : ℚ
  w : ℚ
  h : ℚ
deriving DecidableEq, Repr

/-- The mutable component state the pointer handlers operate on:
`items`, `selectedId`, `drag`, `measure`. -/
structure PlanoState where
  items : List PlanoItem
  selectedId : Option String
  drag : Option DragState
  measure : MeasureState
deriving DecidableEq, Repr

/-- `snap(value, grid) = Math.round(value / grid) * grid` from Plano.tsx.
`Math.round t` is `⌊t + 1/2⌋` (round half up). -/
def snap (value grid : ℚ) : ℚ :=
  (⌊value / grid + 1/2⌋ : ℚ) * grid

/-- `withinHandle(x, y, item)` from Plano.tsx: the pointer is inside the
14×14 px resize zone at the item's bottom-right corner. -/
def withinHandle (x y : ℚ) (item : PlanoItem) : Bool :=
  let handleSize : ℚ := 14
  decide (item.x + item.w - handleSize ≤ x) &&
  decide (x ≤ item.x + item.w) &&
  decide (item.y + item.h - handleSize ≤ y) &&
  decide (y ≤ item.y + item.h)

/-- The hit-test predicate used by `onPointerDown` / `onPointerMoveStage`:
`x >= it.x && x <= it.x + it.w && y >= it.y && y <= it.y + it.h`. -/
def containsPt (x y : ℚ) (it : PlanoItem) : Bool :=
  decide (it.x ≤ x) && decide (x ≤ it.x + it.w) &&
  decide (it.y ≤ y) && decide (y ≤ it.y + it.h)

/-- `[...items].reverse().find(...)` from `onPointerDown`: the top-most
item whose rectangle contains the pointer. -/
def hitTest (x y : ℚ) (items : List PlanoItem) : Option PlanoItem :=
  items.reverse.find? (containsPt x y)

/-- `depthExceeded = (it) => (it.qty || 0) * (it.depth || 0) > containerDepth`
from Plano.tsx. The `|| 0` coercion is `Option.getD _ 0`. -/
def depthExceeded (containerDepth : ℚ) (it : PlanoItem) : Bool :=
  decide ((it.qty.getD 0) * (it.depth.getD 0) > containerDepth)

/-- `rowHeightPx` memo from Plano.tsx:
`rowCount > 0 && stageSize.height ? stageSize.height / rowCount : null`.
A zero (unmeasured) stage height is falsy. -/
def rowHeightPx (rowCount : ℤ) (stageHeight : ℚ) : Option ℚ :=
  if 0 < rowCount ∧ stageHeight ≠ 0 then some (stageHeight / rowCount) else none

/-- `isHeightExceeded = (item) => rowHeightPx !== null && item.h > rowHeightPx + 0.01`
from Plano.tsx. -/
def isHeightExceeded (rowCount : ℤ) (stageHeight : ℚ) (item : PlanoItem) : Bool :=
  match rowHeightPx rowCount stageHeight with
  | none => false
  | some rowHeight => decide (item.h > rowHeight + 1/100)

/-- The `newY` computed inside `alignItemToRows` in Plano.tsx, as a
function of the item's `y` and `h`:
row height, bottom edge, `rawRow = Math.ceil(itemBottom / rowHeight) - 1`,
clamped row index, baseline, `newY = Math.max(0, baseline - item.h)`. -/
def alignedY (rowCount : ℤ) (stageHeight y h : ℚ) : ℚ :=
  let rowHeight := stageHeight / rowCount
  let itemBottom := y + h
  let rawRow : ℤ := ⌈itemBottom / rowHeight⌉ - 1
  let rowIndex : ℤ := max 0 (min (rowCount - 1) rawRow)
  let baseline := min stageHeight (rowHeight * ((rowIndex : ℚ) + 1))
  max 0 (baseline - h)

/-- `alignItemToRows(item, stageHeight?)` from Plano.tsx. The guard
`!stageHeight || rowCount <= 0` returns the item unchanged; so does a
recomputed `y` within `0.01` of the current one
(`Math.abs(newY - item.y) < 0.01`). -/
def alignItemToRows (rowCount : ℤ) (item : PlanoItem) (stageHeight : Option ℚ) : PlanoItem :=
  match stageHeight with
  | none => item
  | some H =>
    if H = 0 ∨ rowCount ≤ 0 then item
    else
      let newY := alignedY rowCount H item.y item.h
      if |newY - item.y| < 1/100 then item
      else { item with y := newY }

/-- `selected` memo from Plano.tsx:
`items.find((i) => i.id === selectedId) || null`; a `null` selection
matches no item. -/
def selected (s : PlanoState) : Option PlanoItem :=
  match s.selectedId with
  | none => none
  | some sid => s.items.find? (fun i => i.id == sid)

/-- `onPointerDown` from Plano.tsx (pointer already stage-relative):
measure mode starts a measurement; otherwise the top-most hit item is
selected and a drag (move or resize) begins; a miss clears the
selection. -/
def onPointerDown (measureMode : Bool) (x y : ℚ) (s : PlanoState) : PlanoState :=
  if measureMode then
    { s with measure := ⟨true, x, y, 0, 0⟩ }
  else
    match hitTest x y s.items with
    | some topItem =>
      { s with
        selectedId := some topItem.id
        drag := some ⟨topItem.id, x - topItem.x, y - topItem.y, withinHandle x y topItem⟩ }
    | none => { s with selectedId := none }

/-- `onPointerMove` from Plano.tsx (pointer already stage-relative):
an active measurement tracks the pointer; otherwise the dragged item is
resized (`max(20, pointer - origin)` then snapped) or moved
(`pointer - grab offset` then snapped); with no drag, no change. -/
def onPointerMove (measureMode : Bool) (gridSize x y : ℚ) (s : PlanoState) : PlanoState :=
  if measureMode && s.measure.active then
    { s with measure := { s.measure with w := x - s.measure.x, h := y - s.measure.y } }
  else
    match s.drag with
    | none => s
    | some drag =>
      { s with items := s.items.map (fun it =>
          if it.id ≠ drag.id then it
          else if drag.resizing then
            { it with
              w := snap (max 20 (x - it.x)) gridSize
              h := snap (max 20 (y - it.y)) gridSize }
          else
            { it with
              x := snap (x - drag.offsetX) gridSize
              y := snap (y - drag.offsetY) gridSize }) }

/-- `removeSelected` from Plano.tsx: with no selection do nothing, else
filter out the items whose id equals the selected id and clear the
selection. -/
def removeSelected (s : PlanoState) : PlanoState :=
  match selected s with
  | none => s
  | some sel =>
    { s with
      items := s.items.filter (fun it => !(it.id == sel.id))
      selectedId := none }

/-- The two initial items of Plano.tsx. -/
def itA : PlanoItem :=
  { id := "A", name := "Box A", x := 60, y := 60, w := 160, h := 120
    depth := some 30, qty := some 1, color := "#22d3ee" }

def itB : PlanoItem :=
  { id := "B", name := "Box B", x := 280, y := 60, w := 120, h := 160
    depth := some 20, qty := some 1, color := "#ef4444" }

/-- The initial component state of Plano.tsx. -/
def s0 : PlanoState :=
  { items := [itA, itB], selectedId := some "A", drag := none
    measure := ⟨false, 0, 0, 0, 0⟩ }

/-! ## Claim C5: snapping is idempotent -/

/-- Claim C5: for every value `v` and grid size `g` in the configurable
range 10–40, `snap (snap v g) g = snap v g`. -/
theorem snap_idem (v g : ℚ) (hg1 : 10 ≤ g) (hg2 : g ≤ 40) :
    snap (snap v g) g = snap v g := by
  have hg : g ≠ 0 := ne_of_gt (by linarith)
  have h0 : ⌊(1/2 : ℚ)⌋ = 0 := by norm_num [Int.floor_eq_iff]
  unfold snap
  rw [mul_div_cancel_right₀ _ hg, Int.floor_int_add, h0, add_zero]

/-- Witness for C5 at `v = 77`, `g = 20`. -/
theorem snap_idem_witness : snap (snap 77 20) 20 = snap 77 20 :=
  snap_idem 77 20 (by norm_num) (by norm_num)

/-! ## Claims C1 and C10: the depth validation predicate -/

/-- Claim C1: for an item with numeric `qty` and `depth`, `depthExceeded`
is true exactly when `qty * depth` is strictly greater than the container
depth. -/
theorem depthExceeded_strict_boundary (it : PlanoItem) (q d containerDepth : ℚ)
    (hq : it.qty = some q) (hd : it.depth = some d) :
    depthExceeded containerDepth it = true ↔ q * d > containerDepth := by
  simp [depthExceeded, hq, hd]

def itC1a : PlanoItem := { itA with qty := some 2, depth := some 20 }

def itC1b : PlanoItem := { itA with qty := some 2, depth := some 21 }

/-- Witness for C1: with container depth 40, `qty = 2`, `depth = 20`
(total exactly 40) is not flagged, while `qty = 2`, `depth = 21`
(total 42) is flagged. -/
theorem depthExceeded_strict_boundary_witness :
    depthExceeded 40 itC1a ≠ true ∧ depthExceeded 40 itC1b = true :=
  ⟨fun hc => absurd ((depthExceeded_strict_boundary itC1a 2 20 40 rfl rfl).mp hc) (by norm_num),
   (depthExceeded_strict_boundary itC1b 2 21 40 rfl rfl).mpr (by norm_num)⟩

/-- Claim C10: an item whose `qty` or `depth` is absent/NaN is coerced to
0 by the `|| 0` guard, so it is never depth-flagged when the container
depth is nonnegative. -/
theorem depthExceeded_missing_fields (it : PlanoItem) (containerDepth : ℚ)
    (hmiss : it.qty = none ∨ it.depth = none) (hcd : 0 ≤ containerDepth) :
    depthExceeded containerDepth it ≠ true := by
  rcases hmiss with h | h <;>
    simp only [depthExceeded, h, Option.getD_none, zero_mul, mul_zero, gt_iff_lt, ne_eq,
      decide_eq_true_eq] <;>
    exact not_lt.mpr hcd

def itC10 : PlanoItem := { itA with qty := none }

/-- Witness for C10 at a concrete item with missing quantity. -/
theorem depthExceeded_missing_fields_witness : depthExceeded 40 itC10 ≠ true :=
  depthExceeded_missing_fields itC10 40 (Or.inl rfl) (by norm_num)

/-! ## Claim C4: the height validation predicate -/

/-- Claim C4: `isHeightExceeded` holds exactly when
`item.h > stageHeight / rowCount + 0.01`, and is false whenever the row
height cannot be computed (`stageHeight = 0` or `rowCount ≤ 0`). -/
theorem isHeightExceeded_rowheight_spec (rowCount : ℤ) (stageHeight : ℚ) (it : PlanoItem) :
    (0 < rowCount → stageHeight ≠ 0 →
      (isHeightExceeded rowCount stageHeight it = true ↔
        it.h > stageHeight / rowCount + 1/100)) ∧
    ((rowCount ≤ 0 ∨ stageHeight = 0) → isHeightExceeded rowCount stageHeight it = false) := by
  constructor
  · intro h1 h2
    have hr : rowHeightPx rowCount stageHeight = some (stageHeight / rowCount) := by
      simp only [rowHeightPx]
      rw [if_pos ⟨h1, h2⟩]
    simp [isHeightExceeded, hr]
  · intro h
    have hr : rowHeightPx rowCount stageHeight = none := by
      simp only [rowHeightPx]
      rw [if_neg]
      rintro ⟨hc1, hc2⟩
      rcases h with h | h
      · exact absurd hc1 (not_lt.mpr h)
      · exact hc2 h
    simp [isHeightExceeded, hr]

def it260 : PlanoItem := { itA with h := 260 }

def it200 : PlanoItem := { itA with h := 200 }

/-- Witness for C4: stage height 700, 3 rows (row height 700/3 ≈ 233.3):
an item of height 260 is flagged, one of height 200 is not. -/
theorem isHeightExceeded_rowheight_spec_witness :
    isHeightExceeded 3 700 it260 = true ∧ isHeightExceeded 3 700 it200 = false :=
  ⟨((isHeightExceeded_rowheight_spec 3 700 it260).1 (by decide) (by norm_num)).mpr
      (by norm_num [it260, itA]),
   Bool.eq_false_iff.mpr fun hc =>
     absurd (((isHeightExceeded_rowheight_spec 3 700 it200).1 (by decide) (by norm_num)).mp hc)
       (by norm_num [it200, itA])⟩

/-! ## Claim C6: pointer-move during a move drag -/

/-- Claim C6: during a move drag (a drag with `resizing = false`), a
pointer-move commits the dragged item position as
`snap (pointer - grab offset)` on each axis and leaves every other item
unchanged; moreover `snap 77 20 = 80`. -/
theorem onPointerMove_move_commit (gridSize x y : ℚ) (s : PlanoState) (d : DragState)
    (hd : s.drag = some d) (hres : d.resizing = false) :
    (onPointerMove false gridSize x y s).items =
      s.items.map (fun it =>
        if it.id = d.id then
          { it with x := snap (x - d.offsetX) gridSize, y := snap (y - d.offsetY) gridSize }
        else it) ∧
    snap 77 20 = 80 := by
  constructor
  · simp only [onPointerMove, Bool.false_and, Bool.false_eq_true, if_false, hd]
    apply List.map_congr_left
    intro it _
    by_cases hid : it.id = d.id <;> simp [hid, hres]
  · have h : ⌊(77:ℚ)/20 + 1/2⌋ = 4 := by norm_num [Int.floor_eq_iff]
    unfold snap; rw [h]; norm_num

def dragMove : DragState := { id := "A", offsetX := 3, offsetY := 0, resizing := false }

def sMove : PlanoState :=
  { items := [itA, itB], selectedId := some "A", drag := some dragMove
    measure := ⟨false, 0, 0, 0, 0⟩ }

/-- Witness for C6: grid 20, pointer at x = 80 with grab offset 3 gives
raw x = 77, committed as snap 77 20 = 80. -/
theorem onPointerMove_move_commit_witness :
    (onPointerMove false 20 80 60 sMove).items =
      sMove.items.map (fun it =>
        if it.id = dragMove.id then
          { it with x := snap (80 - dragMove.offsetX) 20, y := snap (60 - dragMove.offsetY) 20 }
        else it) ∧
    snap 77 20 = 80 :=
  onPointerMove_move_commit 20 80 60 sMove dragMove rfl rfl

/-! ## Claim C7: hit-testing picks the top-most item -/

lemma find?_eq_head_filter {α : Type} (p : α → Bool) (l : List α) :
    l.find? p = (l.filter p).head? := by
  induction l with
  | nil => rfl
  | cons a l ih =>
    cases h : p a
    · rw [List.find?_cons_of_neg _ (by simp [h]), List.filter_cons_of_neg (by simp [h]), ih]
    · rw [List.find?_cons_of_pos _ h, List.filter_cons_of_pos h, List.head?_cons]

/-- `hitTest` returns the last item of the ordered list whose rectangle
contains the pointer. -/
lemma hitTest_eq_getLast_filter (x y : ℚ) (items : List PlanoItem) :
    hitTest x y items = (items.filter (containsPt x y)).getLast? := by
  rw [hitTest, find?_eq_head_filter, List.filter_reverse, List.head?_reverse]

/-- Claim C7: when some item contains the pointer, pointer-down selects
and drags the last item in the ordered list among those containing the
pointer (the top-most in painter order). -/
theorem onPointerDown_topmost (x y : ℚ) (s : PlanoState) (it : PlanoItem)
    (hmem : it ∈ s.items) (hc : containsPt x y it = true) :
    ∃ top, (s.items.filter (containsPt x y)).getLast? = some top ∧
      (onPointerDown false x y s).selectedId = some top.id ∧
      (onPointerDown false x y s).drag =
        some ⟨top.id, x - top.x, y - top.y, withinHandle x y top⟩ := by
  have hfil : it ∈ s.items.filter (containsPt x y) := List.mem_filter.mpr ⟨hmem, hc⟩
  have hne : s.items.filter (containsPt x y) ≠ [] := List.ne_nil_of_mem hfil
  have hsome : (s.items.filter (containsPt x y)).getLast?.isSome := List.getLast?_isSome.mpr hne
  obtain ⟨top, htop⟩ := Option.isSome_iff_exists.mp hsome
  have hht : hitTest x y s.items = some top := by rw [hitTest_eq_getLast_filter, htop]
  exact ⟨top, htop, by simp [onPointerDown, hht], by simp [onPointerDown, hht]⟩

/-- Witness for C7: at pointer (100, 100) on the initial state, box A
contains the pointer, so some top-most item is selected and dragged. -/
theorem onPointerDown_topmost_witness :
    ∃ top, (s0.items.filter (containsPt 100 100)).getLast? = some top ∧
      (onPointerDown false 100 100 s0).selectedId = some top.id ∧
      (onPointerDown false 100 100 s0).drag =
        some ⟨top.id, 100 - top.x, 100 - top.y, withinHandle 100 100 top⟩ :=
  onPointerDown_topmost 100 100 s0 itA (by simp [s0])
    (by norm_num [containsPt, itA, Bool.and_eq_true, decide_eq_true_eq])

/-! ## Claim C8: deleting the selected item -/

/-- Claim C8: with unique item ids, deleting the selected item removes
exactly that item and clears the selection; with no selection the state
is unchanged. -/
theorem removeSelected_clears_selection (s : PlanoState)
    (hnd : (s.items.map (fun it => it.id)).Nodup) :
    (selected s = none → removeSelected s = s) ∧
    (∀ sel, selected s = some sel →
      ∃ l₁ l₂, s.items = l₁ ++ sel :: l₂ ∧
        (removeSelected s).items = l₁ ++ l₂ ∧
        (removeSelected s).selectedId = none) := by
  constructor
  · intro h
    simp only [removeSelected, h]
  · intro sel h
    have hmem : sel ∈ s.items := by
      unfold selected at h
      cases hsid : s.selectedId with
      | none => rw [hsid] at h; exact absurd h (by simp)
      | some sid =>
        rw [hsid] at h
        exact List.mem_of_find?_eq_some h
    obtain ⟨l₁, l₂, hsplit⟩ := List.append_of_mem hmem
    have hids : ((l₁ ++ sel :: l₂).map (fun it => it.id)).Nodup := by rw [← hsplit]; exact hnd
    rw [List.map_append, List.map_cons, List.nodup_append] at hids
    obtain ⟨h1, h2, hdisj⟩ := hids
    have hl1 : ∀ a ∈ l₁, a.id ≠ sel.id := by
      intro a ha heq
      exact hdisj (List.mem_map_of_mem _ ha) (by rw [heq]; exact List.mem_cons_self _ _)
    have hl2 : ∀ a ∈ l₂, a.id ≠ sel.id := by
      rw [List.nodup_cons] at h2
      intro a ha heq
      apply h2.1
      rw [← heq]
      exact List.mem_map_of_mem _ ha
    refine ⟨l₁, l₂, hsplit, ?_, ?_⟩
    · simp only [removeSelected, h]
      rw [hsplit, List.filter_append, List.filter_cons]
      simp only [beq_self_eq_true, Bool.not_true, Bool.false_eq_true, if_false]
      rw [List.filter_eq_self.mpr, List.filter_eq_self.mpr]
      · intro a ha; simp [hl2 a ha]
      · intro a ha; simp [hl1 a ha]
    · simp only [removeSelected, h]

/-- Witness for C8: deleting box A from the initial state leaves exactly
box B and clears the selection. -/
theorem removeSelected_clears_selection_witness :
    ∃ l₁ l₂, s0.items = l₁ ++ itA :: l₂ ∧
      (removeSelected s0).items = l₁ ++ l₂ ∧
      (removeSelected s0).selectedId = none :=
  (removeSelected_clears_selection s0 (by decide)).2 itA (by decide)

/-! ## Row alignment: structural lemmas -/

/-- The clamped one-based row number used by `alignedY`: with the raw
row index clamped to `[0, rowCount-1]`, the baseline factor
`rowIndex + 1` equals `max 1 (min rowCount ⌈bottom / rowHeight⌉)`, and
(for a positive stage height and at least one row) the `min` with the
stage height in the baseline is redundant. -/
lemma alignedY_core (rc : ℤ) (H y h : ℚ) (hH : 0 < H) (hrc : 1 ≤ rc) :
    ∃ k : ℤ, 1 ≤ k ∧ k ≤ rc ∧ k = max 1 (min rc ⌈(y + h) / (H / rc)⌉) ∧
      alignedY rc H y h = max 0 (H / rc * (k : ℚ) - h) := by
  have hrcZ : (0:ℤ) < rc := by omega
  have hrcQ : (0:ℚ) < (rc:ℚ) := by exact_mod_cast hrcZ
  have hrh : 0 < H / (rc:ℚ) := div_pos hH hrcQ
  refine ⟨max 1 (min rc ⌈(y + h) / (H / rc)⌉), by omega, by omega, rfl, ?_⟩
  simp only [alignedY]
  have hidx : max 0 (min (rc - 1) (⌈(y + h) / (H / (rc:ℚ))⌉ - 1)) + 1
      = max 1 (min rc ⌈(y + h) / (H / (rc:ℚ))⌉) := by omega
  have hcast : ((max 0 (min (rc - 1) (⌈(y + h) / (H / (rc:ℚ))⌉ - 1)) : ℤ) : ℚ) + 1
      = ((max 1 (min rc ⌈(y + h) / (H / (rc:ℚ))⌉) : ℤ) : ℚ) := by
    rw [← hidx]; push_cast; ring
  rw [hcast]
  have hk2 : max 1 (min rc ⌈(y + h) / (H / (rc:ℚ))⌉) ≤ rc := by omega
  have hkQ : ((max 1 (min rc ⌈(y + h) / (H / (rc:ℚ))⌉) : ℤ) : ℚ) ≤ (rc:ℚ) := by
    exact_mod_cast hk2
  have hle : H / (rc:ℚ) * ((max 1 (min rc ⌈(y + h) / (H / (rc:ℚ))⌉) : ℤ) : ℚ) ≤ H := by
    have h1 := mul_le_mul_of_nonneg_left hkQ hrh.le
    have h2 : H / (rc:ℚ) * (rc:ℚ) = H := div_mul_cancel₀ H (ne_of_gt hrcQ)
    linarith
  rw [min_eq_right hle]

/-- For an item with nonnegative `y`, the `newY` computed by
`alignItemToRows` is a fixed point of the computation: recomputing it
from the aligned position gives the same value. -/
lemma alignedY_fixed (rc : ℤ) (H y h : ℚ) (hH : 0 < H) (hrc : 1 ≤ rc) (hy : 0 ≤ y) :
    alignedY rc H (alignedY rc H y h) h = alignedY rc H y h := by
  have hrcZ : (0:ℤ) < rc := by omega
  have hrcQ : (0:ℚ) < (rc:ℚ) := by exact_mod_cast hrcZ
  have hrh : 0 < H / (rc:ℚ) := div_pos hH hrcQ
  obtain ⟨k, hk1, hk2, hkdef, hAeq⟩ := alignedY_core rc H y h hH hrc
  by_cases hcase : h ≤ H / rc * (k:ℚ)
  · have hy₁ : alignedY rc H y h = H / rc * (k:ℚ) - h := by
      rw [hAeq, max_eq_right (sub_nonneg.mpr hcase)]
    obtain ⟨k₂, hk₂1, hk₂2, hk₂def, hBeq⟩ := alignedY_core rc H (alignedY rc H y h) h hH hrc
    have hbot : (alignedY rc H y h + h) / (H / rc) = (k:ℚ) := by
      rw [hy₁, sub_add_cancel, mul_div_cancel_left₀ _ (ne_of_gt hrh)]
    rw [hbot, Int.ceil_intCast] at hk₂def
    have hk₂k : k₂ = k := by omega
    rw [hBeq, hk₂k, ← hAeq]
  · push_neg at hcase
    have hy₁ : alignedY rc H y h = 0 := by
      rw [hAeq, max_eq_left (by linarith)]
    have hkc : (k:ℚ) < h / (H / rc) := by
      rw [lt_div_iff₀ hrh, mul_comm]
      exact hcase
    have h1 : k < ⌈h / (H / (rc:ℚ))⌉ := Int.lt_ceil.mpr hkc
    have hdiv : h / (H / (rc:ℚ)) ≤ (y + h) / (H / (rc:ℚ)) := by
      rw [add_div]
      have h0 : 0 ≤ y / (H / (rc:ℚ)) := div_nonneg hy hrh.le
      linarith
    have h2 : ⌈h / (H / (rc:ℚ))⌉ ≤ ⌈(y + h) / (H / (rc:ℚ))⌉ := Int.ceil_mono hdiv
    have hkrc : k = rc := by omega
    have hcan : H / (rc:ℚ) * (rc:ℚ) = H := div_mul_cancel₀ H (ne_of_gt hrcQ)
    have hHh : H < h := by
      rw [hkrc] at hcase
      rw [hcan] at hcase
      exact hcase
    obtain ⟨k₂, hk₂1, hk₂2, hk₂def, hBeq⟩ := alignedY_core rc H (alignedY rc H y h) h hH hrc
    have hgt : (rc:ℚ) < (alignedY rc H y h + h) / (H / rc) := by
      rw [hy₁, zero_add, lt_div_iff₀ hrh]
      have hc2 : (rc:ℚ) * (H / (rc:ℚ)) = H := by
        rw [mul_comm]; exact hcan
      linarith
    have h3 : rc < ⌈(alignedY rc H y h + h) / (H / (rc:ℚ))⌉ := Int.lt_ceil.mpr hgt
    have hk₂rc : k₂ = rc := by omega
    rw [hBeq, hk₂rc, hy₁, hcan, max_eq_left (by linarith)]

/-- When the recomputed `y` is within `0.01` of the current `y` (or the
guard triggers), `alignItemToRows` returns the item unchanged. -/
lemma alignItemToRows_eq_of_small (rc : ℤ) (it : PlanoItem) (H : ℚ)
    (h : |alignedY rc H it.y it.h - it.y| < 1/100) :
    alignItemToRows rc it (some H) = it := by
  simp only [alignItemToRows]
  split_ifs <;> rfl

/-- Outside the guard and the `0.01` tolerance, `alignItemToRows`
rewrites `y` to the recomputed `newY`. -/
lemma alignItemToRows_some_of_large (rc : ℤ) (it : PlanoItem) (H : ℚ)
    (hguard : ¬(H = 0 ∨ rc ≤ 0)) (h : ¬ |alignedY rc H it.y it.h - it.y| < 1/100) :
    alignItemToRows rc it (some H) = { it with y := alignedY rc H it.y it.h } := by
  simp only [alignItemToRows]
  rw [if_neg hguard, if_neg h]

/-! ## Claim C2: row alignment idempotence -/

def itC2 : PlanoItem := { itA with y := -100, h := 60 }

/-- Counterexample to C2 as stated: for the item at `y = -100` with
`h = 60`, stage height 100 and 2 rows, one alignment gives `y = 0` but a
second alignment moves it again, to `y = 40`. -/
theorem alignItemToRows_idem_counterexample :
    (alignItemToRows 2 (alignItemToRows 2 itC2 (some 100)) (some 100)).y ≠
      (alignItemToRows 2 itC2 (some 100)).y := by
  have e1 : alignedY 2 100 (-100) 60 = 0 := by
    have h : ⌈((-100:ℚ) + 60) / (100 / ((2:ℤ):ℚ))⌉ = 0 := by norm_num [Int.ceil_eq_iff]
    simp only [alignedY]
    rw [h]
    norm_num
  have e2 : alignedY 2 100 0 60 = 40 := by
    have h : ⌈((0:ℚ) + 60) / (100 / ((2:ℤ):ℚ))⌉ = 2 := by norm_num [Int.ceil_eq_iff]
    simp only [alignedY]
    rw [h]
    norm_num
  have h1 : alignItemToRows 2 itC2 (some 100) = { itC2 with y := 0 } := by
    simp only [alignItemToRows]
    rw [if_neg (by rintro (h | h) <;> norm_num at h)]
    rw [show itC2.y = -100 from rfl, show itC2.h = 60 from rfl, e1]
    rw [if_neg (by norm_num)]
  have h2 : alignItemToRows 2 { itC2 with y := 0 } (some 100) = { itC2 with y := 40 } := by
    simp only [alignItemToRows]
    rw [if_neg (by rintro (h | h) <;> norm_num at h)]
    rw [show itC2.h = 60 from rfl, e2]
    rw [if_neg (by norm_num)]
  rw [h1, h2]
  show (40:ℚ) ≠ 0
  norm_num

/-- Claim C2 amended: row alignment is idempotent for items with
nonnegative `y`: for stage height `H > 0` and `rowCount ≥ 1`, aligning
twice yields the same `y` as aligning once. -/
theorem alignItemToRows_idem_nonneg (rc : ℤ) (it : PlanoItem) (H : ℚ)
    (hy : 0 ≤ it.y) (hH : 0 < H) (hrc : 1 ≤ rc) :
    (alignItemToRows rc (alignItemToRows rc it (some H)) (some H)).y
      = (alignItemToRows rc it (some H)).y := by
  have hguard : ¬(H = 0 ∨ rc ≤ 0) := by
    rintro (h | h)
    · exact absurd h (ne_of_gt hH)
    · omega
  by_cases htol : |alignedY rc H it.y it.h - it.y| < 1/100
  · rw [alignItemToRows_eq_of_small rc it H htol, alignItemToRows_eq_of_small rc it H htol]
  · have hA : alignItemToRows rc it (some H) = { it with y := alignedY rc H it.y it.h } :=
      alignItemToRows_some_of_large rc it H hguard htol
    rw [hA]
    have hfix : alignedY rc H (alignedY rc H it.y it.h) it.h = alignedY rc H it.y it.h :=
      alignedY_fixed rc H it.y it.h hH hrc hy
    have hsmall : |alignedY rc H ({ it with y := alignedY rc H it.y it.h } : PlanoItem).y
        ({ it with y := alignedY rc H it.y it.h } : PlanoItem).h -
        ({ it with y := alignedY rc H it.y it.h } : PlanoItem).y| < 1/100 := by
      show |alignedY rc H (alignedY rc H it.y it.h) it.h - alignedY rc H it.y it.h| < 1/100
      rw [hfix, sub_self, abs_zero]
      norm_num
    rw [alignItemToRows_eq_of_small rc _ H hsmall]

/-- Witness for the amended C2 at box A (`y = 60 ≥ 0`), stage height
700, 3 rows. -/
theorem alignItemToRows_idem_nonneg_witness :
    (alignItemToRows 3 (alignItemToRows 3 itA (some 700)) (some 700)).y
      = (alignItemToRows 3 itA (some 700)).y :=
  alignItemToRows_idem_nonneg 3 itA 700 (by norm_num [itA]) (by norm_num) (by decide)

/-! ## Claim C9: alignment only moves `y` -/

/-- `alignItemToRows` returns the input item with at most the `y` field
replaced. -/
lemma alignItemToRows_shape (rc : ℤ) (it : PlanoItem) (sh : Option ℚ) :
    ∃ v, alignItemToRows rc it sh = { it with y := v } := by
  cases sh with
  | none => exact ⟨it.y, rfl⟩
  | some H =>
    simp only [alignItemToRows]
    split_ifs
    · exact ⟨it.y, rfl⟩
    · exact ⟨it.y, rfl⟩
    · exact ⟨alignedY rc H it.y it.h, rfl⟩

/-- Claim C9: `alignItemToRows` changes at most `y` (all other fields
are preserved), and returns the item entirely unchanged when the stage
height is absent or 0, when `rowCount ≤ 0`, or when the recomputed `y`
is within `0.01` of the current one. -/
theorem alignItemToRows_frame (rc : ℤ) (it : PlanoItem) (sh : Option ℚ) :
    ((alignItemToRows rc it sh).id = it.id ∧
     (alignItemToRows rc it sh).name = it.name ∧
     (alignItemToRows rc it sh).x = it.x ∧
     (alignItemToRows rc it sh).w = it.w ∧
     (alignItemToRows rc it sh).h = it.h ∧
     (alignItemToRows rc it sh).depth = it.depth ∧
     (alignItemToRows rc it sh).qty = it.qty ∧
     (alignItemToRows rc it sh).color = it.color) ∧
    (alignItemToRows rc it none = it) ∧
    (alignItemToRows rc it (some 0) = it) ∧
    (rc ≤ 0 → alignItemToRows rc it sh = it) ∧
    (∀ H, |alignedY rc H it.y it.h - it.y| < 1/100 → alignItemToRows rc it (some H) = it) := by
  obtain ⟨v, hv⟩ := alignItemToRows_shape rc it sh
  refine ⟨?_, rfl, ?_, ?_, ?_⟩
  · rw [hv]
    exact ⟨rfl, rfl, rfl, rfl, rfl, rfl, rfl, rfl⟩
  · simp only [alignItemToRows]
    rw [if_pos (Or.inl trivial)]
  · intro h
    cases sh with
    | none => rfl
    | some H =>
      simp only [alignItemToRows]
      rw [if_pos (Or.inr h)]
  · intro H hsmall
    exact alignItemToRows_eq_of_small rc it H hsmall

/-- Witness for C9: with `rowCount = 0` the item is returned unchanged. -/
theorem alignItemToRows_frame_witness : alignItemToRows 0 itA (some 5) = itA :=
  (alignItemToRows_frame 0 itA (some 5)).2.2.2.1 (by decide)

/-! ## Claim C3: the 20 px resize floor -/

def itC3 : PlanoItem :=
  { id := "A", name := "Box A", x := 0, y := 0, w := 100, h := 100
    depth := some 30, qty := some 1, color := "#22d3ee" }

def dragResize : DragState := { id := "A", offsetX := 0, offsetY := 0, resizing := true }

def sC3 : PlanoState :=
  { items := [itC3], selectedId := some "A", drag := some dragResize
    measure := ⟨false, 0, 0, 0, 0⟩ }

/-- Claim C3 fails on the code: resizing with grid size 14 (inside the
configurable range 10–40) and the pointer at (20, 20) over an item at
the origin commits width and height `snap (max 20 20) 14 = 14`,
strictly below the 20 px minimum, because the snap is applied after the
`max 20` clamp. -/
theorem resize_commits_below_min_floor :
    ((onPointerMove false 14 20 20 sC3).items.map fun it => (it.w, it.h)) = [(14, 14)] ∧
    (14:ℚ) < 20 := by
  constructor
  · have hsnap : snap (20:ℚ) 14 = 14 := by
      have h : ⌊(20:ℚ)/14 + 1/2⌋ = 1 := by norm_num [Int.floor_eq_iff]
      unfold snap; rw [h]; norm_num
    simp [onPointerMove, sC3, itC3, dragResize, hsnap]
  · norm_num

end Plano
